import Mathlib

/-!
Verification of the on-disk page and item encoding layer of the WiredTiger
btree storage engine, as defined by the macros and constants of
`inc_posix/btree.h`.

Machine integers are embedded as `Nat` with explicit reductions modulo
`2 ^ 32` (for `u_int32_t` casts) where the C code truncates.  The packed
item header macros (`WT_ITEM_LEN`, `WT_ITEM_TYPE`, `WT_ITEM_LEN_SET`,
`WT_ITEM_TYPE_SET`) are embedded with the same bitwise operations and hex
masks the source uses.  Fallible operations described by the specification
(`pack`, `to_addr`, `to_offset`, `set_length`) are embedded as
`Except`-returning wrappers around the corresponding source macros.
-/

namespace WTBtree

/-! ### Constants from btree.h -/

/-- First possible page address (btree.h: WT_ADDR_FIRST_PAGE). -/
def WT_ADDR_FIRST_PAGE : Nat := 0

/-- Invalid-address sentinel, UINT32_MAX (btree.h: WT_ADDR_INVALID). -/
def WT_ADDR_INVALID : Nat := 4294967295

/-- Size of the database descriptor (btree.h: WT_PAGE_DESC_SIZE). -/
def WT_PAGE_DESC_SIZE : Nat := 64

/-- Size of the common page header (btree.h: WT_PAGE_HDR_SIZE; the startup
check asserts sizeof the WT_PAGE_HDR struct equals this constant). -/
def WT_PAGE_HDR_SIZE : Nat := 32

/-- Size of a packed item header (btree.h: WT_ITEM_SIZE = sizeof(WT_ITEM)). -/
def WT_ITEM_SIZE : Nat := 4

/-- Maximum trailing-data length of an item (btree.h: WT_ITEM_MAX_LEN,
written there as 16 * 1024 * 1024 - 1). -/
def WT_ITEM_MAX_LEN : Nat := 16 * 1024 * 1024 - 1

/-- Modulus of the C type u_int32_t, 2 ^ 32. -/
def U32_MOD : Nat := 4294967296

/-- Largest value representable in an off_t (signed 64-bit file offset),
2 ^ 63 - 1. -/
def OFF_T_MAX : Nat := 9223372036854775807

/-! ### Item type constants (btree.h lines 328-334) -/

/-- Leaf/internal page key (btree.h: 0x01000000). -/
def WT_ITEM_KEY : Nat := 0x01000000

/-- Leaf/internal page overflow key (btree.h: 0x02000000). -/
def WT_ITEM_KEY_OVFL : Nat := 0x02000000

/-- Leaf page data item (btree.h: 0x03000000). -/
def WT_ITEM_DATA : Nat := 0x03000000

/-- Leaf page overflow data item (btree.h: 0x04000000). -/
def WT_ITEM_DATA_OVFL : Nat := 0x04000000

/-- Duplicate data item (btree.h: 0x05000000). -/
def WT_ITEM_DUP : Nat := 0x05000000

/-- Duplicate overflow data item (btree.h: 0x06000000). -/
def WT_ITEM_DUP_OVFL : Nat := 0x06000000

/-- Offpage reference (btree.h: 0x07000000). -/
def WT_ITEM_OFFPAGE : Nat := 0x07000000

/-- The seven valid item type patterns. -/
def wtItemTypes : List Nat :=
  [WT_ITEM_KEY, WT_ITEM_KEY_OVFL, WT_ITEM_DATA, WT_ITEM_DATA_OVFL,
   WT_ITEM_DUP, WT_ITEM_DUP_OVFL, WT_ITEM_OFFPAGE]

/-! ### Packed item header macros (btree.h lines 336-343) -/

/-- WT_ITEM_LEN: `(item)->__item_chunk & 0x00ffffff`. -/
def WT_ITEM_LEN (chunk : Nat) : Nat := chunk &&& 0x00ffffff

/-- WT_ITEM_TYPE: `(item)->__item_chunk & 0x0f000000`. -/
def WT_ITEM_TYPE (chunk : Nat) : Nat := chunk &&& 0x0f000000

/-- WT_ITEM_LEN_SET: `(item)->__item_chunk = WT_ITEM_TYPE(item) | (len)`. -/
def WT_ITEM_LEN_SET (chunk len : Nat) : Nat := WT_ITEM_TYPE chunk ||| len

/-- WT_ITEM_TYPE_SET: `(item)->__item_chunk = WT_ITEM_LEN(item) | (type)`. -/
def WT_ITEM_TYPE_SET (chunk typ : Nat) : Nat := WT_ITEM_LEN chunk ||| typ

/-! ### Address translation macros (btree.h lines 35-38) -/

/-- WT_ADDR_TO_OFF: `(off_t)(addr) * (db)->allocsize`. -/
def WT_ADDR_TO_OFF (allocsize addr : Nat) : Nat := addr * allocsize

/-- WT_OFF_TO_ADDR: `(u_int32_t)((off) / (db)->allocsize)`; the cast to
u_int32_t is the reduction modulo 2 ^ 32. -/
def WT_OFF_TO_ADDR (allocsize off : Nat) : Nat := off / allocsize % U32_MOD

/-! ### Alignment and space computation -/

/-- Modelled from the spec: the WT_ALIGN macro is referenced by btree.h
(in WT_OVFL_BYTES and WT_ITEM_SPACE_REQ) but defined in a header that is
not part of the sources here; the spec describes it as `align_up`,
rounding `n` up to the next multiple of `v`. -/
def WT_ALIGN (n v : Nat) : Nat := (n + v - 1) / v * v

/-- WT_ITEM_SPACE_REQ: `WT_ALIGN(sizeof(WT_ITEM) + (len), sizeof(u_int32_t))`
(btree.h lines 360-361); sizeof(WT_ITEM) = 4 and sizeof(u_int32_t) = 4. -/
def WT_ITEM_SPACE_REQ (len : Nat) : Nat := WT_ALIGN (WT_ITEM_SIZE + len) 4

/-- WT_OVFL_BYTES: `(u_int32_t)WT_ALIGN((len) + sizeof(WT_PAGE_HDR),
(db)->allocsize)` (btree.h lines 41-42); sizeof(WT_PAGE_HDR) = 32 and the
cast to u_int32_t is the reduction modulo 2 ^ 32. -/
def WT_OVFL_BYTES (allocsize len : Nat) : Nat :=
  WT_ALIGN (len + WT_PAGE_HDR_SIZE) allocsize % U32_MOD

/-! ### Page layout and item iteration (btree.h lines 276-278, 363-371) -/

/-- WT_PAGE_BYTE as a byte offset from the start of the page:
`WT_PAGE_HDR_SIZE + ((page)->addr == 0 ? WT_PAGE_DESC_SIZE : 0)`. -/
def WT_PAGE_BYTE (addr : Nat) : Nat :=
  WT_PAGE_HDR_SIZE + (if addr = 0 then WT_PAGE_DESC_SIZE else 0)

/-- WT_ITEM_NEXT: the first byte of the next item,
`(u_int8_t *)(item) + WT_ITEM_SPACE_REQ(WT_ITEM_LEN(item))`.  Page memory
is embedded as a function `mem` from a byte offset to the 4-byte chunk
stored there (the `__item_chunk` read). -/
def WT_ITEM_NEXT (mem : Nat → Nat) (off : Nat) : Nat :=
  off + WT_ITEM_SPACE_REQ (WT_ITEM_LEN (mem off))

/-- WT_ITEM_FOREACH: the loop
`for (item = WT_PAGE_BYTE(page), i = entries; i > 0; item = WT_ITEM_NEXT(item), --i)`
as the list of item offsets visited, starting from `off` for `n` entries. -/
def WT_ITEM_FOREACH (mem : Nat → Nat) : Nat → Nat → List Nat
  | _, 0 => []
  | off, n + 1 => off :: WT_ITEM_FOREACH mem (WT_ITEM_NEXT mem off) n

/-- Total on-page space consumed by the first `n` items starting at `off`:
the sum of their WT_ITEM_SPACE_REQ footprints. -/
def itemsSpace (mem : Nat → Nat) : Nat → Nat → Nat
  | _, 0 => 0
  | off, n + 1 =>
    WT_ITEM_SPACE_REQ (WT_ITEM_LEN (mem off)) + itemsSpace mem (WT_ITEM_NEXT mem off) n

/-! ### Fallible operations described by the specification -/

/-- Address-translation errors named by the spec. -/
inductive AddrError where
  | Misaligned : AddrError
  | OutOfRange : AddrError

/-- Item-encoding errors named by the spec. -/
inductive ItemError where
  | ItemTooLarge : ItemError

/-- Modelled from the spec: `to_offset(addr, alloc_unit_size)` fails with
OutOfRange if the product would exceed the file-offset representable range;
the success path is the WT_ADDR_TO_OFF macro.  The range guard is absent
from btree.h, which defines only the raw macro. -/
def to_offset (addr allocsize : Nat) : Except AddrError Nat :=
  if OFF_T_MAX < WT_ADDR_TO_OFF allocsize addr then Except.error AddrError.OutOfRange
  else Except.ok (WT_ADDR_TO_OFF allocsize addr)

/-- Modelled from the spec: `to_addr(byte_offset, alloc_unit_size)` fails
with Misaligned if the offset is not a multiple of the allocation-unit
size; the success path is the WT_OFF_TO_ADDR macro.  The alignment guard
is absent from btree.h, which defines only the raw macro. -/
def to_addr (off allocsize : Nat) : Except AddrError Nat :=
  if off % allocsize = 0 then Except.ok (WT_OFF_TO_ADDR allocsize off)
  else Except.error AddrError.Misaligned

/-- Modelled from the spec: `pack(type, length)` fails with ItemTooLarge
if `length > WT_ITEM_MAX_LEN`; the success path packs a fresh chunk with
the WT_ITEM_TYPE_SET and WT_ITEM_LEN_SET macros from btree.h.  The length
guard is absent from btree.h, which defines only the raw macros and the
WT_ITEM_MAX_LEN constant. -/
def pack (typ len : Nat) : Except ItemError Nat :=
  if WT_ITEM_MAX_LEN < len then Except.error ItemError.ItemTooLarge
  else Except.ok (WT_ITEM_LEN_SET (WT_ITEM_TYPE_SET 0 typ) len)

/-- unpack: read back the type and length fields with the WT_ITEM_TYPE and
WT_ITEM_LEN macros. -/
def unpack (chunk : Nat) : Nat × Nat := (WT_ITEM_TYPE chunk, WT_ITEM_LEN chunk)

/-- Modelled from the spec: `set_length(existing_chunk, new_length)` guarded
by the 24-bit limit; returns the possible error together with the item state
after the call, so a failed call observably leaves the chunk unmodified.
The success path is the WT_ITEM_LEN_SET macro from btree.h. -/
def set_length (chunk len : Nat) : Option ItemError × Nat :=
  if WT_ITEM_MAX_LEN < len then (some ItemError.ItemTooLarge, chunk)
  else (none, WT_ITEM_LEN_SET chunk len)

/-- Concrete page memory for witnesses: every chunk reads as zero. -/
def mem0 : Nat → Nat := fun _ => 0

/-! ### Bridging lemmas: bitwise macros as arithmetic -/

theorem and_mask_shiftLeft (x m k : Nat) :
    x &&& (m <<< k) = ((x >>> k) &&& m) <<< k := by
  apply Nat.eq_of_testBit_eq
  intro j
  simp only [Nat.testBit_and, Nat.testBit_shiftLeft, Nat.testBit_shiftRight]
  by_cases h : k ≤ j
  · have hj : k + (j - k) = j := by omega
    simp [ge_iff_le, h, hj]
  · simp [ge_iff_le, h]

theorem WT_ITEM_LEN_eq (x : Nat) : WT_ITEM_LEN x = x % 16777216 := by
  have hm : (0x00ffffff : Nat) = 2 ^ 24 - 1 := by norm_num
  rw [WT_ITEM_LEN, hm, Nat.and_pow_two_sub_one_eq_mod]

theorem WT_ITEM_TYPE_eq (x : Nat) :
    WT_ITEM_TYPE x = x / 16777216 % 16 * 16777216 := by
  have hm : (0x0f000000 : Nat) = 15 <<< 24 := by
    rw [Nat.shiftLeft_eq]
  rw [WT_ITEM_TYPE, hm, and_mask_shiftLeft, Nat.shiftLeft_eq,
    Nat.shiftRight_eq_div_pow]
  have h15 : (15 : Nat) = 2 ^ 4 - 1 := by norm_num
  rw [h15, Nat.and_pow_two_sub_one_eq_mod]

theorem or_low (c b : Nat) (hb : b < 16777216) :
    c * 16777216 ||| b = c * 16777216 + b := by
  have e : (2 : Nat) ^ 24 = 16777216 := by norm_num
  have hb2 : b < 2 ^ 24 := by rw [e]; exact hb
  have h := (Nat.mul_add_lt_is_or hb2 c).symm
  rw [e, Nat.mul_comm 16777216 c] at h
  exact h

theorem typ_form {typ : Nat} (h : typ ∈ wtItemTypes) :
    ∃ c, 0 < c ∧ c < 16 ∧ typ = c * 16777216 := by
  simp only [wtItemTypes, WT_ITEM_KEY, WT_ITEM_KEY_OVFL, WT_ITEM_DATA,
    WT_ITEM_DATA_OVFL, WT_ITEM_DUP, WT_ITEM_DUP_OVFL, WT_ITEM_OFFPAGE,
    List.mem_cons, List.not_mem_nil, or_false] at h
  rcases h with h | h | h | h | h | h | h <;> subst h
  · exact ⟨1, by norm_num⟩
  · exact ⟨2, by norm_num⟩
  · exact ⟨3, by norm_num⟩
  · exact ⟨4, by norm_num⟩
  · exact ⟨5, by norm_num⟩
  · exact ⟨6, by norm_num⟩
  · exact ⟨7, by norm_num⟩

theorem WT_ITEM_TYPE_SET_zero (typ : Nat) : WT_ITEM_TYPE_SET 0 typ = typ := by
  simp [WT_ITEM_TYPE_SET, WT_ITEM_LEN]

theorem packed_chunk_eq (c len : Nat) (hc : c < 16) (hlen : len < 16777216) :
    WT_ITEM_LEN_SET (c * 16777216) len = c * 16777216 + len := by
  rw [WT_ITEM_LEN_SET, WT_ITEM_TYPE_eq]
  have hd : c * 16777216 / 16777216 % 16 = c := by omega
  rw [hd, or_low c len hlen]

/-! ### Iterator helper lemmas -/

theorem WT_ITEM_FOREACH_length (mem : Nat → Nat) :
    ∀ n off, (WT_ITEM_FOREACH mem off n).length = n := by
  intro n
  induction n with
  | zero => intro off; rfl
  | succ n ih => intro off; simp [WT_ITEM_FOREACH, ih]

theorem WT_ITEM_FOREACH_zero (mem : Nat → Nat) (off n : Nat) (h : 0 < n) :
    (WT_ITEM_FOREACH mem off n)[0]? = some off := by
  cases n with
  | zero => omega
  | succ n => simp [WT_ITEM_FOREACH]

theorem WT_ITEM_FOREACH_succ (mem : Nat → Nat) :
    ∀ n off i, i + 1 < n →
      (WT_ITEM_FOREACH mem off n)[i + 1]? =
        ((WT_ITEM_FOREACH mem off n)[i]?).map (WT_ITEM_NEXT mem) := by
  intro n
  induction n with
  | zero => intro off i h; omega
  | succ n ih =>
    intro off i h
    cases i with
    | zero =>
      have h0 : 0 < n := by omega
      simp [WT_ITEM_FOREACH, WT_ITEM_FOREACH_zero mem _ n h0]
    | succ j =>
      have hj : j + 1 < n := by omega
      simp only [WT_ITEM_FOREACH, List.getElem?_cons_succ]
      exact ih (WT_ITEM_NEXT mem off) j hj

theorem WT_ITEM_FOREACH_bound (mem : Nat → Nat) :
    ∀ n off bound, itemsSpace mem off n ≤ bound →
      ∀ o ∈ WT_ITEM_FOREACH mem off n,
        o + WT_ITEM_SPACE_REQ (WT_ITEM_LEN (mem o)) ≤ off + bound := by
  intro n
  induction n with
  | zero => intro off bound _ o ho; simp [WT_ITEM_FOREACH] at ho
  | succ n ih =>
    intro off bound hs o ho
    simp only [WT_ITEM_FOREACH, List.mem_cons] at ho
    simp only [itemsSpace] at hs
    rcases ho with rfl | ho
    · omega
    · have hrec := ih (WT_ITEM_NEXT mem off)
        (bound - WT_ITEM_SPACE_REQ (WT_ITEM_LEN (mem off))) (by omega) o ho
      unfold WT_ITEM_NEXT at hrec
      omega

/-! ### Claim theorems -/

/-- Claim C1, counterexample: the claim locates the item type in the top
nibble (bits 28-31).  For the packed key item header (type WT_ITEM_KEY,
length 0) the top nibble is 0, not the key code 1; the code 1 sits in
bits 24-27 instead (268435456 is 2 ^ 28 and 16777216 is 2 ^ 24). -/
theorem C1_counterexample :
    WT_ITEM_TYPE_SET 0 WT_ITEM_KEY / 268435456 % 16 = 0 ∧
    ¬ WT_ITEM_TYPE_SET 0 WT_ITEM_KEY / 268435456 % 16 = 1 ∧
    WT_ITEM_TYPE_SET 0 WT_ITEM_KEY / 16777216 % 16 = 1 := by
  decide

/-- Claim C1, amended: in the packed 4-byte item header the bottom 24 bits
hold the trailing-data length, the item type is a 4-bit pattern stored in
bits 24-27 (the nibble below the top one), the type patterns for key,
key-overflow, data, data-overflow, dup, dup-overflow and off-page are the
distinct nibble values 1 through 7, and the top 4 bits (28-31) are the
unused ones: every packed header is below 2 ^ 28. -/
theorem C1_item_header_layout :
    (WT_ITEM_KEY / 16777216 = 1 ∧ WT_ITEM_KEY_OVFL / 16777216 = 2 ∧
     WT_ITEM_DATA / 16777216 = 3 ∧ WT_ITEM_DATA_OVFL / 16777216 = 4 ∧
     WT_ITEM_DUP / 16777216 = 5 ∧ WT_ITEM_DUP_OVFL / 16777216 = 6 ∧
     WT_ITEM_OFFPAGE / 16777216 = 7) ∧
    ∀ typ, typ ∈ wtItemTypes → ∀ len, len ≤ WT_ITEM_MAX_LEN →
      WT_ITEM_LEN (WT_ITEM_LEN_SET (WT_ITEM_TYPE_SET 0 typ) len) = len ∧
      WT_ITEM_LEN_SET (WT_ITEM_TYPE_SET 0 typ) len / 16777216 % 16 = typ / 16777216 ∧
      WT_ITEM_LEN_SET (WT_ITEM_TYPE_SET 0 typ) len / 268435456 = 0 := by
  constructor
  · decide
  · intro typ htyp len hlen
    obtain ⟨c, hc0, hc16, rfl⟩ := typ_form htyp
    have hlen24 : len < 16777216 := by unfold WT_ITEM_MAX_LEN at hlen; omega
    rw [WT_ITEM_TYPE_SET_zero, packed_chunk_eq c len hc16 hlen24, WT_ITEM_LEN_eq]
    refine ⟨by omega, by omega, by omega⟩

/-- Witness for the amended C1 at the dup type and length 10. -/
theorem C1_item_header_layout_witness :
    WT_ITEM_LEN (WT_ITEM_LEN_SET (WT_ITEM_TYPE_SET 0 WT_ITEM_DUP) 10) = 10 ∧
    WT_ITEM_LEN_SET (WT_ITEM_TYPE_SET 0 WT_ITEM_DUP) 10 / 16777216 % 16 =
      WT_ITEM_DUP / 16777216 ∧
    WT_ITEM_LEN_SET (WT_ITEM_TYPE_SET 0 WT_ITEM_DUP) 10 / 268435456 = 0 :=
  C1_item_header_layout.2 WT_ITEM_DUP (by decide) 10 (by decide)

/-- Claim C2: packing (and setting the length field of an existing chunk)
fails with ItemTooLarge whenever the requested length exceeds
WT_ITEM_MAX_LEN = 16777215, and in that case the item chunk is left
unmodified; for every length at most 16777215 the pack succeeds. -/
theorem C2_pack_length_guard (chunk typ len : Nat) :
    (WT_ITEM_MAX_LEN < len →
      pack typ len = Except.error ItemError.ItemTooLarge ∧
      set_length chunk len = (some ItemError.ItemTooLarge, chunk)) ∧
    (len ≤ WT_ITEM_MAX_LEN →
      pack typ len = Except.ok (WT_ITEM_LEN_SET (WT_ITEM_TYPE_SET 0 typ) len) ∧
      set_length chunk len = (none, WT_ITEM_LEN_SET chunk len)) := by
  constructor
  · intro h
    exact ⟨by simp [pack, h], by simp [set_length, h]⟩
  · intro h
    have hn : ¬ WT_ITEM_MAX_LEN < len := by omega
    exact ⟨by simp [pack, hn], by simp [set_length, hn]⟩

/-- Witness for C2 at the boundary length 16777216 and at length 3. -/
theorem C2_pack_length_guard_witness :
    (pack WT_ITEM_KEY 16777216 = Except.error ItemError.ItemTooLarge ∧
      set_length 5 16777216 = (some ItemError.ItemTooLarge, 5)) ∧
    (pack WT_ITEM_KEY 3 =
        Except.ok (WT_ITEM_LEN_SET (WT_ITEM_TYPE_SET 0 WT_ITEM_KEY) 3) ∧
      set_length 5 3 = (none, WT_ITEM_LEN_SET 5 3)) :=
  ⟨(C2_pack_length_guard 5 WT_ITEM_KEY 16777216).1 (by decide),
   (C2_pack_length_guard 5 WT_ITEM_KEY 3).2 (by decide)⟩

/-- Claim C3: for every valid item type and every length up to
WT_ITEM_MAX_LEN, unpacking the packed 4-byte item header returns exactly
the original type and length. -/
theorem C3_unpack_pack_roundtrip (typ len : Nat) (htyp : typ ∈ wtItemTypes)
    (hlen : len ≤ WT_ITEM_MAX_LEN) :
    Except.map unpack (pack typ len) = Except.ok (typ, len) := by
  obtain ⟨c, hc0, hc16, rfl⟩ := typ_form htyp
  have hlen24 : len < 16777216 := by unfold WT_ITEM_MAX_LEN at hlen; omega
  have hn : ¬ WT_ITEM_MAX_LEN < len := by omega
  rw [pack, if_neg hn, WT_ITEM_TYPE_SET_zero, packed_chunk_eq c len hc16 hlen24]
  refine congrArg Except.ok ?_
  rw [unpack, WT_ITEM_TYPE_eq, WT_ITEM_LEN_eq]
  have h1 : (c * 16777216 + len) / 16777216 % 16 * 16777216 = c * 16777216 := by
    omega
  have h2 : (c * 16777216 + len) % 16777216 = len := by omega
  rw [h1, h2]

/-- Witness for C3 at the data type and length 1. -/
theorem C3_unpack_pack_roundtrip_witness :
    Except.map unpack (pack WT_ITEM_DATA 1) = Except.ok (WT_ITEM_DATA, 1) :=
  C3_unpack_pack_roundtrip WT_ITEM_DATA 1 (by decide) (by decide)

/-- Claim C4: to_addr performs integer division by the allocation-unit
size (the WT_OFF_TO_ADDR computation, including its u_int32_t cast) and
fails with Misaligned whenever the byte offset is not an exact multiple of
the allocation-unit size; a misaligned offset is never silently
truncated. -/
theorem C4_to_addr_division (off allocsize : Nat) :
    (off % allocsize = 0 →
      to_addr off allocsize = Except.ok (off / allocsize % U32_MOD)) ∧
    (off % allocsize ≠ 0 →
      to_addr off allocsize = Except.error AddrError.Misaligned) := by
  constructor <;> intro h <;> simp [to_addr, WT_OFF_TO_ADDR, h]

/-- Witness for C4: an aligned offset divides, a misaligned one fails. -/
theorem C4_to_addr_division_witness :
    to_addr 1024 512 = Except.ok (1024 / 512 % U32_MOD) ∧
    to_addr 513 512 = Except.error AddrError.Misaligned :=
  ⟨(C4_to_addr_division 1024 512).1 (by decide),
   (C4_to_addr_division 513 512).2 (by decide)⟩

/-- Claim C5: to_offset returns the product addr * alloc_unit_size
(WT_ADDR_TO_OFF) and fails with OutOfRange whenever that product would
exceed the off_t representable range; whenever the product is
representable, the exact product is returned. -/
theorem C5_to_offset_product (addr allocsize : Nat) :
    (addr * allocsize ≤ OFF_T_MAX →
      to_offset addr allocsize = Except.ok (addr * allocsize)) ∧
    (OFF_T_MAX < addr * allocsize →
      to_offset addr allocsize = Except.error AddrError.OutOfRange) := by
  constructor <;> intro h
  · have hn : ¬ OFF_T_MAX < WT_ADDR_TO_OFF allocsize addr := by
      unfold WT_ADDR_TO_OFF; omega
    unfold to_offset
    rw [if_neg hn]
    rfl
  · simp [to_offset, WT_ADDR_TO_OFF, h]

/-- Witness for C5: a small product is returned exactly, an overflowing
product fails with OutOfRange. -/
theorem C5_to_offset_product_witness :
    to_offset 3 512 = Except.ok (3 * 512) ∧
    to_offset 9223372036854775807 2 = Except.error AddrError.OutOfRange :=
  ⟨(C5_to_offset_product 3 512).1 (by decide),
   (C5_to_offset_product 9223372036854775807 2).2 (by decide)⟩

/-- Claim C6: for every valid 32-bit allocation-unit address (below 2 ^ 32
and not the WT_ADDR_INVALID sentinel) and every allocation-unit size of at
least 512 whose product with the address is off_t-representable,
converting the address to a byte offset and back yields the original
address. -/
theorem C6_addr_offset_roundtrip (a u : Nat) (ha : a < U32_MOD)
    (hinv : a ≠ WT_ADDR_INVALID) (hu : 512 ≤ u) (hoff : a * u ≤ OFF_T_MAX) :
    to_offset a u = Except.ok (a * u) ∧ to_addr (a * u) u = Except.ok a := by
  constructor
  · have hn : ¬ OFF_T_MAX < WT_ADDR_TO_OFF u a := by
      unfold WT_ADDR_TO_OFF; omega
    unfold to_offset
    rw [if_neg hn]
    rfl
  · have hmod : a * u % u = 0 := Nat.mul_mod_left a u
    unfold to_addr
    rw [if_pos hmod]
    refine congrArg Except.ok ?_
    unfold WT_OFF_TO_ADDR
    have hu0 : 0 < u := by omega
    rw [Nat.mul_div_cancel a hu0]
    exact Nat.mod_eq_of_lt ha

/-- Witness for C6 at address 5 and allocation unit 512. -/
theorem C6_addr_offset_roundtrip_witness :
    to_offset 5 512 = Except.ok (5 * 512) ∧
    to_addr (5 * 512) 512 = Except.ok 5 :=
  C6_addr_offset_roundtrip 5 512 (by decide) (by decide) (by decide) (by decide)

/-- Claim C7: the on-page footprint of an item of a given length is
align_up(4 + length, 4), hence always a multiple of 4 and at least
4 + length. -/
theorem C7_footprint_alignment (len : Nat) :
    WT_ITEM_SPACE_REQ len = WT_ALIGN (4 + len) 4 ∧
    WT_ITEM_SPACE_REQ len % 4 = 0 ∧
    4 + len ≤ WT_ITEM_SPACE_REQ len := by
  refine ⟨rfl, ?_, ?_⟩ <;>
    · unfold WT_ITEM_SPACE_REQ WT_ALIGN WT_ITEM_SIZE
      omega

/-- Claim C8: on any chunk, WT_ITEM_LEN_SET with a length in the valid
24-bit range replaces the length while preserving the stored type, and
WT_ITEM_TYPE_SET with one of the seven valid type patterns replaces the
type while preserving the stored length. -/
theorem C8_set_preserves_other_field (chunk typ len : Nat)
    (hlen : len ≤ WT_ITEM_MAX_LEN) (htyp : typ ∈ wtItemTypes) :
    WT_ITEM_TYPE (WT_ITEM_LEN_SET chunk len) = WT_ITEM_TYPE chunk ∧
    WT_ITEM_LEN (WT_ITEM_LEN_SET chunk len) = len ∧
    WT_ITEM_LEN (WT_ITEM_TYPE_SET chunk typ) = WT_ITEM_LEN chunk ∧
    WT_ITEM_TYPE (WT_ITEM_TYPE_SET chunk typ) = typ := by
  obtain ⟨c, hc0, hc16, rfl⟩ := typ_form htyp
  have hlen24 : len < 16777216 := by unfold WT_ITEM_MAX_LEN at hlen; omega
  have hlo : chunk % 16777216 < 16777216 := Nat.mod_lt _ (by norm_num)
  have hset : WT_ITEM_LEN_SET chunk len =
      chunk / 16777216 % 16 * 16777216 + len := by
    rw [WT_ITEM_LEN_SET, WT_ITEM_TYPE_eq, or_low _ _ hlen24]
  have htset : WT_ITEM_TYPE_SET chunk (c * 16777216) =
      c * 16777216 + chunk % 16777216 := by
    rw [WT_ITEM_TYPE_SET, WT_ITEM_LEN_eq, Nat.or_comm, or_low _ _ hlo]
  refine ⟨?_, ?_, ?_, ?_⟩
  · rw [hset, WT_ITEM_TYPE_eq, WT_ITEM_TYPE_eq]; omega
  · rw [hset, WT_ITEM_LEN_eq]; omega
  · rw [htset, WT_ITEM_LEN_eq, WT_ITEM_LEN_eq]; omega
  · rw [htset, WT_ITEM_TYPE_eq]; omega

/-- Witness for C8 on the chunk holding a data item of length 5. -/
theorem C8_set_preserves_other_field_witness :
    WT_ITEM_TYPE (WT_ITEM_LEN_SET 0x03000005 9) = WT_ITEM_TYPE 0x03000005 ∧
    WT_ITEM_LEN (WT_ITEM_LEN_SET 0x03000005 9) = 9 ∧
    WT_ITEM_LEN (WT_ITEM_TYPE_SET 0x03000005 WT_ITEM_DUP) =
      WT_ITEM_LEN 0x03000005 ∧
    WT_ITEM_TYPE (WT_ITEM_TYPE_SET 0x03000005 WT_ITEM_DUP) = WT_ITEM_DUP :=
  C8_set_preserves_other_field 0x03000005 WT_ITEM_DUP 9 (by decide) (by decide)

/-- Claim C9: over a page whose header declares n entries the item walk
produces exactly n item offsets; the first is the first usable item byte
(WT_PAGE_BYTE: header end, plus the 64-byte descriptor exactly when the
page address is 0); each subsequent offset is the previous offset advanced
by WT_ITEM_NEXT, i.e. by the footprint of the previous item; and when the
declared items fit in a byte region of the page, no visited item extends
past that region. -/
theorem C9_iterator (mem : Nat → Nat) (addr n regionSize : Nat) :
    (WT_ITEM_FOREACH mem (WT_PAGE_BYTE addr) n).length = n ∧
    WT_PAGE_BYTE addr =
      WT_PAGE_HDR_SIZE + (if addr = 0 then WT_PAGE_DESC_SIZE else 0) ∧
    (0 < n →
      (WT_ITEM_FOREACH mem (WT_PAGE_BYTE addr) n)[0]? =
        some (WT_PAGE_BYTE addr)) ∧
    (∀ i, i + 1 < n →
      (WT_ITEM_FOREACH mem (WT_PAGE_BYTE addr) n)[i + 1]? =
        ((WT_ITEM_FOREACH mem (WT_PAGE_BYTE addr) n)[i]?).map
          (WT_ITEM_NEXT mem)) ∧
    (itemsSpace mem (WT_PAGE_BYTE addr) n ≤ regionSize →
      ∀ o ∈ WT_ITEM_FOREACH mem (WT_PAGE_BYTE addr) n,
        o + WT_ITEM_SPACE_REQ (WT_ITEM_LEN (mem o)) ≤
          WT_PAGE_BYTE addr + regionSize) :=
  ⟨WT_ITEM_FOREACH_length mem n _, rfl,
   fun h => WT_ITEM_FOREACH_zero mem _ n h,
   fun i h => WT_ITEM_FOREACH_succ mem n _ i h,
   fun h => WT_ITEM_FOREACH_bound mem n _ regionSize h⟩

/-- Witness for C9 on the all-zero page at address 0 with two entries. -/
theorem C9_iterator_witness :
    (WT_ITEM_FOREACH mem0 (WT_PAGE_BYTE 0) 2).length = 2 ∧
    (WT_ITEM_FOREACH mem0 (WT_PAGE_BYTE 0) 2)[0]? = some (WT_PAGE_BYTE 0) ∧
    ∀ o ∈ WT_ITEM_FOREACH mem0 (WT_PAGE_BYTE 0) 2,
      o + WT_ITEM_SPACE_REQ (WT_ITEM_LEN (mem0 o)) ≤ WT_PAGE_BYTE 0 + 8 := by
  obtain ⟨h1, h2, h3, h4, h5⟩ := C9_iterator mem0 0 2 8
  exact ⟨h1, h3 (by decide), h5 (by decide)⟩

/-- Claim C10, counterexample: WT_OVFL_BYTES casts the aligned total to
u_int32_t, so for the maximal 32-bit overflow length 4294967295 with a
512-byte allocation unit the reserved-byte count the code computes is 512,
not align_up(len + 32, 512) = 4294967808. -/
theorem C10_counterexample :
    WT_OVFL_BYTES 512 4294967295 = 512 ∧
    WT_ALIGN (4294967295 + WT_PAGE_HDR_SIZE) 512 = 4294967808 ∧
    ¬ WT_OVFL_BYTES 512 4294967295 =
        WT_ALIGN (4294967295 + WT_PAGE_HDR_SIZE) 512 := by
  decide

/-- Claim C10, amended: whenever align_up(len + 32, u) is representable in
32 bits, the number of on-disk bytes reserved for an overflow item of
length len with allocation unit u equals align_up(len + 32, u): the data
is stored behind a full page header of WT_PAGE_HDR_SIZE = 32 bytes and the
total is rounded up to a whole number of allocation units (in general the
stored u_int32_t is that total reduced modulo 2 ^ 32). -/
theorem C10_ovfl_bytes (len u : Nat)
    (h : WT_ALIGN (len + WT_PAGE_HDR_SIZE) u < U32_MOD) :
    WT_OVFL_BYTES u len = WT_ALIGN (len + WT_PAGE_HDR_SIZE) u ∧
    WT_PAGE_HDR_SIZE = 32 :=
  ⟨Nat.mod_eq_of_lt h, rfl⟩

/-- Witness for the amended C10 at length 1000 and allocation unit 512. -/
theorem C10_ovfl_bytes_witness :
    WT_OVFL_BYTES 512 1000 = WT_ALIGN (1000 + WT_PAGE_HDR_SIZE) 512 ∧
    WT_PAGE_HDR_SIZE = 32 :=
  C10_ovfl_bytes 1000 512 (by decide)

end WTBtree
